import Mathlib

/-!
Shallow embedding of the real-time task hub in `src/backend/backend/main.go`
(package `main`): the subscriber registry (`clients`), the broadcast hub
(`broadcastTaskUpdate`), the WebSocket relay loop (`setupWebSocket`), the task
mutation pipeline (`createTask`) and the read endpoint (`getTasks`).

Conventions of the embedding:
* a `*websocket.Conn` pointer is an opaque handle, modeled as a `Nat` id;
* the global mutable map `clients : map[*websocket.Conn]bool` is modeled as the
  list of its keys, threaded explicitly through each operation;
* a transport write (`WriteJSON` / `WriteMessage`) either succeeds or fails;
  which handles fail is a parameter `wfail : Handle → Bool` of the run;
* database effects are explicit: the outcome of an `INSERT` is a boolean
  parameter, the attempted writes are collected in the result; `time.Now()` is
  a parameter `now`; `time.Time` values are integer timestamps;
* fallible steps (body parsing, queries) are driven by explicit outcome data.
-/

set_option autoImplicit false

namespace TaskHub

/-- Opaque subscriber handle: stands for a `*websocket.Conn` pointer. -/
abbrev Handle := Nat

/-- The `Task` struct of `main.go` (`id`, `title`, `assigned`, `status`,
`created_at`); `time.Time` is modeled as an integer timestamp. -/
structure Task where
  id : Int
  title : String
  assigned : String
  status : String
  createdAt : Int
  deriving Repr, DecidableEq

/-- Registration of a connection, `clients[c] = true` in `setupWebSocket`
(main.go line 204): a Go map assignment adds the key if absent and leaves the
key set unchanged if present. -/
def register (s : List Handle) (h : Handle) : List Handle :=
  if h ∈ s then s else h :: s

/-- Removal of a connection, `delete(clients, c)` (main.go lines 206, 218,
231): a Go map delete removes the key if present and is a no-op otherwise. -/
def unregister (s : List Handle) (h : Handle) : List Handle :=
  s.filter (fun x => !(x == h))

/-- The view of the registry that a `for client := range clients` loop
iterates over. -/
def snapshot (s : List Handle) : List Handle := s

/-- The two mutations the registry is subjected to over its lifetime. -/
inductive RegOp where
  | reg (h : Handle)
  | unreg (h : Handle)

/-- Apply one registry mutation. -/
def applyOp (s : List Handle) : RegOp → List Handle
  | .reg h => register s h
  | .unreg h => unregister s h

/-- Apply a sequence of registry mutations, starting from state `s`. -/
def applyOps (s : List Handle) : List RegOp → List Handle
  | [] => s
  | op :: rest => applyOps (applyOp s op) rest

/-- Modelled from the spec: the "set of handles currently registered" after a
sequence of register/unregister calls, as a `Finset` (a set has no
duplicates by construction). Reference semantics to compare `applyOps`
against. -/
def registeredSpec (s : Finset Handle) : List RegOp → Finset Handle
  | [] => s
  | .reg h :: rest => registeredSpec (insert h s) rest
  | .unreg h :: rest => registeredSpec (s.erase h) rest

/-- The fan-out loop shared (verbatim, up to the payload type and write
function) by `broadcastTaskUpdate` (main.go lines 228-234) and the relay loop
of `setupWebSocket` (lines 216-221):

    for client := range clients {
        if err := client.Write...(payload); err != nil {
            delete(clients, client)
            client.Close()
        }
    }

`pending` is the remaining iteration sequence, `reg` the current registry
state and `sent` the successful deliveries so far, in order. -/
def fanoutLoop {α : Type} (wfail : Handle → Bool) (payload : α) :
    List Handle → List Handle → List (Handle × α) → List Handle × List (Handle × α)
  | [], reg, sent => (reg, sent)
  | c :: pending, reg, sent =>
      if wfail c then fanoutLoop wfail payload pending (unregister reg c) sent
      else fanoutLoop wfail payload pending reg (sent ++ [(c, payload)])

/-- Run the fan-out loop over a snapshot of the registry. Returns the registry
after the loop and the list of successful deliveries. -/
def fanout {α : Type} (wfail : Handle → Bool) (clients : List Handle) (payload : α) :
    List Handle × List (Handle × α) :=
  fanoutLoop wfail payload (snapshot clients) clients []

/-- The `broadcastTaskUpdate` function (main.go lines 227-235): write the task
as JSON to every connected client, deleting and closing every client whose
write fails. The function returns no error to its caller. -/
def broadcastTaskUpdate (wfail : Handle → Bool) (clients : List Handle) (task : Task) :
    List Handle × List (Handle × Task) :=
  fanout wfail clients task

/-- Fields of a JSON request body for `POST /task`, before decoding into the
`Task` struct; `none` marks a field absent from the body. -/
structure TaskInput where
  id : Option Int
  title : Option String
  assigned : Option String
  status : Option String
  createdAt : Option Int
  deriving Repr, DecidableEq

/-- Decoding a well-formed body into the `Task` struct, as `c.BodyParser(&task)`
does (Go `encoding/json` semantics): a field absent from the body leaves the
struct field at its zero value (`0`, `""`). -/
def parsedTask (inp : TaskInput) : Task :=
  ⟨inp.id.getD 0, inp.title.getD "", inp.assigned.getD "", inp.status.getD "",
   inp.createdAt.getD 0⟩

/-- One attempted `INSERT INTO tasks (title, assigned, status, created_at)
VALUES ($1, $2, $3, $4)` with its bound arguments (main.go lines 160-162). The
statement has no `RETURNING` clause: the row id the database assigns is never
read back, and `created_at` is bound to the server's `time.Now()`. -/
structure StoreWrite where
  title : String
  assigned : String
  status : String
  createdAt : Int
  deriving Repr, DecidableEq

/-- A response body produced by `createTask`: either
`fiber.Map{"message": ...}` or `fiber.Map{"error": ...}`. The handler never
serializes a `Task` into its response. -/
inductive RespBody where
  | message (s : String)
  | error (s : String)
  deriving Repr, DecidableEq

/-- Everything observable about one run of the `createTask` handler: the HTTP
status and body sent to the caller, the store writes attempted, the events
handed to `broadcastTaskUpdate`, the per-subscriber deliveries that succeeded,
and the registry state after the run. -/
structure CreateResult where
  status : Nat
  body : RespBody
  storeAttempts : List StoreWrite
  events : List Task
  delivered : List (Handle × Task)
  registry : List Handle
  deriving Repr, DecidableEq

/-- The `createTask` handler (main.go lines 154-171). `malformed` is the
outcome of `c.BodyParser` (it fails only when the body cannot be decoded;
it performs no field-presence validation), `storeFails` the outcome of the
`INSERT`, `now` the value of `time.Now()`, `clients` the registry at entry. -/
def createTask (malformed : Bool) (inp : TaskInput) (storeFails : Bool) (now : Int)
    (wfail : Handle → Bool) (clients : List Handle) : CreateResult :=
  if malformed then
    ⟨400, .error "Invalid request", [], [], [], clients⟩
  else
    let task := parsedTask inp
    let attempt : StoreWrite := ⟨task.title, task.assigned, task.status, now⟩
    if storeFails then
      ⟨500, .error "Failed to create task", [attempt], [], [], clients⟩
    else
      let b := broadcastTaskUpdate wfail clients task
      ⟨200, .message "Task created successfully", [attempt], [task], b.2, b.1⟩

/-- A request as it reaches the router of `main` (main.go lines 62-77): the
optional bearer credential of the `Authorization` header, and the `POST /task`
payload. -/
structure TaskRequest where
  bearer : Option String
  malformed : Bool
  input : TaskInput
  deriving Repr, DecidableEq

/-- Dispatch of `POST /task` as wired in `main` (main.go line 72): the only
middleware installed is `cors.New()` and `logger.New()`; no handler or
middleware reads the `Authorization` header, so the request reaches
`createTask` unconditionally. -/
def handleTaskPost (req : TaskRequest) (storeFails : Bool) (now : Int)
    (wfail : Handle → Bool) (clients : List Handle) : CreateResult :=
  createTask req.malformed req.input storeFails now wfail clients

/-- A JSON value, for the bodies `getTasks` can produce. -/
inductive Json where
  | null
  | str (s : String)
  | num (n : Int)
  | arr (l : List Json)
  | obj (fields : List (String × Json))

/-- Whether a JSON value is `null`. -/
def Json.isNull : Json → Bool
  | .null => true
  | _ => false

/-- Go's `json.Marshal` on a slice value: a nil slice marshals to `null`, a
non-nil slice (even empty) to an array. -/
inductive GoSlice (α : Type) where
  | nil
  | mk (l : List α)

/-- Go `append` on a slice: appending to a nil slice allocates a fresh
non-nil slice. -/
def GoSlice.append {α : Type} : GoSlice α → α → GoSlice α
  | .nil, a => .mk [a]
  | .mk l, a => .mk (l ++ [a])

/-- Go `len` on a slice (0 for nil). -/
def GoSlice.len {α : Type} : GoSlice α → Nat
  | .nil => 0
  | .mk l => l.length

/-- Go `json.Marshal` on a `[]Task`-like slice. -/
def marshalSlice {α : Type} (enc : α → Json) : GoSlice α → Json
  | .nil => .null
  | .mk l => .arr (l.map enc)

/-- JSON encoding of the `Task` struct per its struct tags. -/
def encodeTask (t : Task) : Json :=
  .obj [("id", .num t.id), ("title", .str t.title), ("assigned", .str t.assigned),
        ("status", .str t.status), ("created_at", .num t.createdAt)]

/-- The HTTP outcome of `getTasks`: status and JSON body. -/
structure GetResult where
  status : Nat
  body : Json

/-- The `getTasks` handler (main.go lines 174-199). `none` is a failed
`Query`; otherwise each row's scan outcome is given (`none` = scan error, the
loop `continue`s past it). `tasks` starts as a nil slice (`var tasks []Task`)
and rows are accumulated with `append`; when no row was accumulated the
handler explicitly returns `[]Task{}` (a non-nil empty slice) instead of the
nil slice, so the body is `[]`, not `null`. -/
def getTasks (query : Option (List (Option Task))) : GetResult :=
  match query with
  | none => ⟨500, .obj [("error", .str "Failed to retrieve tasks")]⟩
  | some rows =>
      let tasks : GoSlice Task :=
        rows.foldl (fun acc r => match r with | none => acc | some t => acc.append t) .nil
      if tasks.len = 0 then ⟨200, marshalSlice encodeTask (.mk [])⟩
      else ⟨200, marshalSlice encodeTask tasks⟩

/-- A WebSocket frame: message type and payload bytes, as read by
`c.ReadMessage()`. -/
structure WsMsg where
  kind : Nat
  payload : List Nat
  deriving Repr, DecidableEq

/-- One iteration of the read loop of the `/ws` handler in `setupWebSocket`
(main.go lines 210-222): a frame read from one connection is written verbatim
(`client.WriteMessage(messageType, msg)`) to every client in the registry —
the sender included, since it was registered on connect — deleting and closing
clients whose write fails. No database call occurs anywhere in the handler, so
the run's list of attempted store writes is empty. -/
def wsHandleMessage (wfail : Handle → Bool) (clients : List Handle) (msg : WsMsg) :
    (List Handle × List (Handle × WsMsg)) × List StoreWrite :=
  (fanout wfail clients msg, [])

/-! ### Characterization of the fan-out loop -/

/-- The deliveries made by the fan-out loop: one per iterated handle whose
write succeeds, in iteration order, each carrying the payload. -/
theorem fanoutLoop_sent {α : Type} (wfail : Handle → Bool) (payload : α)
    (pending : List Handle) : ∀ (reg : List Handle) (sent : List (Handle × α)),
    (fanoutLoop wfail payload pending reg sent).2 =
      sent ++ (pending.filter (fun c => !wfail c)).map (fun c => (c, payload)) := by
  induction pending with
  | nil => intro reg sent; simp [fanoutLoop]
  | cons c pending ih =>
      intro reg sent
      by_cases hc : wfail c = true
      · simp [fanoutLoop, hc, ih]
      · simp [fanoutLoop, hc, ih]

/-- The registry after the fan-out loop: the handles it started with, minus
every iterated handle whose write fails. -/
theorem fanoutLoop_reg {α : Type} (wfail : Handle → Bool) (payload : α)
    (pending : List Handle) : ∀ (reg : List Handle) (sent : List (Handle × α)),
    (fanoutLoop wfail payload pending reg sent).1 =
      reg.filter (fun x => !(wfail x && pending.contains x)) := by
  induction pending with
  | nil => intro reg sent; simp [fanoutLoop]
  | cons c pending ih =>
      intro reg sent
      by_cases hc : wfail c = true
      · rw [show fanoutLoop wfail payload (c :: pending) reg sent
            = fanoutLoop wfail payload pending (unregister reg c) sent from by
              simp [fanoutLoop, hc]]
        rw [ih, unregister, List.filter_filter]
        refine List.filter_congr ?_
        intro x _
        rcases hxc : x == c with _ | _
        · have hne : x ≠ c := by simpa using hxc
          simp [List.contains_cons, hxc, hne]
        · have hx : x = c := by simpa using hxc
          simp [List.contains_cons, hxc, hx, hc]
      · rw [show fanoutLoop wfail payload (c :: pending) reg sent
            = fanoutLoop wfail payload pending reg (sent ++ [(c, payload)]) from by
              simp [fanoutLoop, hc]]
        rw [ih]
        refine List.filter_congr ?_
        intro x _
        rcases hxc : x == c with _ | _
        · have hne : x ≠ c := by simpa using hxc
          simp [List.contains_cons, hxc, hne]
        · have hx : x = c := by simpa using hxc
          simp [List.contains_cons, hxc, hx, hc]

/-- Full characterization of one fan-out run over the registry: the surviving
registry is exactly the non-failing handles, and the deliveries are exactly
one per non-failing handle, carrying the payload. -/
theorem fanout_spec {α : Type} (wfail : Handle → Bool) (clients : List Handle)
    (payload : α) :
    fanout wfail clients payload =
      (clients.filter (fun x => !wfail x),
       (clients.filter (fun c => !wfail c)).map (fun c => (c, payload))) := by
  unfold fanout snapshot
  rw [Prod.ext_iff]
  constructor
  · rw [fanoutLoop_reg]
    refine List.filter_congr ?_
    intro x hx
    simp [hx]
  · rw [fanoutLoop_sent]
    simp

/-! ### Registry lemmas -/

/-- Membership after `register`. -/
theorem mem_register (s : List Handle) (h x : Handle) :
    x ∈ register s h ↔ x = h ∨ x ∈ s := by
  unfold register
  by_cases hm : h ∈ s
  · simp only [if_pos hm]
    constructor
    · exact Or.inr
    · rintro (rfl | hx)
      · exact hm
      · exact hx
  · simp [if_neg hm]

/-- Membership after `unregister`. -/
theorem mem_unregister (s : List Handle) (h x : Handle) :
    x ∈ unregister s h ↔ x ∈ s ∧ x ≠ h := by
  simp [unregister]

/-- `register` preserves the no-duplicate-keys property of the Go map. -/
theorem register_nodup (s : List Handle) (h : Handle) (hs : s.Nodup) :
    (register s h).Nodup := by
  unfold register
  by_cases hm : h ∈ s
  · simpa [if_pos hm] using hs
  · simpa [if_neg hm, hm] using hs

/-- `unregister` preserves the no-duplicate-keys property of the Go map. -/
theorem unregister_nodup (s : List Handle) (h : Handle) (hs : s.Nodup) :
    (unregister s h).Nodup :=
  hs.filter _

/-- Every sequence of registry mutations preserves the no-duplicate-keys
property. -/
theorem applyOps_nodup (ops : List RegOp) :
    ∀ s : List Handle, s.Nodup → (applyOps s ops).Nodup := by
  induction ops with
  | nil => intro s hs; exact hs
  | cons op rest ih =>
      intro s hs
      cases op with
      | reg h => exact ih _ (register_nodup s h hs)
      | unreg h => exact ih _ (unregister_nodup s h hs)

/-- The list registry refines the reference set semantics `registeredSpec`:
whenever the starting states agree element-wise, so do the final states. -/
theorem applyOps_mem (ops : List RegOp) :
    ∀ (s : List Handle) (fs : Finset Handle), (∀ x, x ∈ s ↔ x ∈ fs) →
      ∀ x, x ∈ applyOps s ops ↔ x ∈ registeredSpec fs ops := by
  induction ops with
  | nil => intro s fs hiff x; exact hiff x
  | cons op rest ih =>
      intro s fs hiff
      cases op with
      | reg h =>
          refine ih (register s h) (insert h fs) ?_
          intro x
          rw [mem_register, Finset.mem_insert, hiff x]
      | unreg h =>
          refine ih (unregister s h) (fs.erase h) ?_
          intro x
          rw [mem_unregister, Finset.mem_erase, hiff x, and_comm]

/-! ### Claim theorems -/

/-- C1 (counterexample): with the body task `{id: 0, title: "t", assigned:
"a", status: "todo", created_at: 0}`, a succeeding store write at server time
`1` and one live subscriber `7`, `createTask` hands the broadcast hub an event
whose creation timestamp is `0` — the client-supplied value — while the store
write recorded `created_at = 1` (and the row id the database assigns is never
read back at all), and the response body is a fixed success message, not the
stored Task. So the broadcast event does not carry the store-assigned creation
timestamp and the handler does not return the stored Task. -/
theorem createTask_broadcasts_input_not_stored_task :
    (createTask false ⟨some 0, some "t", some "a", some "todo", some 0⟩ false 1
        (fun _ => false) [7]).events.map Task.createdAt = [0] ∧
    (createTask false ⟨some 0, some "t", some "a", some "todo", some 0⟩ false 1
        (fun _ => false) [7]).storeAttempts.map StoreWrite.createdAt = [1] ∧
    (createTask false ⟨some 0, some "t", some "a", some "todo", some 0⟩ false 1
        (fun _ => false) [7]).body = RespBody.message "Task created successfully" ∧
    ((0 : Int) == (1 : Int)) = false :=
  ⟨rfl, rfl, rfl, rfl⟩

/-- C1 (amended): for every parsed input, succeeding store write, server time
and registry state, `createTask` invokes the broadcast hub exactly once, with
an event carrying the parsed input task's fields verbatim — the client-supplied
identifier and creation timestamp, not the store-assigned row id (never read
back) or the `created_at = now` value the store recorded — every non-failing
subscriber receives exactly that event, and the caller gets status 200 with a
fixed success message rather than the stored Task. -/
theorem createTask_success_one_broadcast (inp : TaskInput) (now : Int)
    (wfail : Handle → Bool) (clients : List Handle) :
    (createTask false inp false now wfail clients).status = 200 ∧
    (createTask false inp false now wfail clients).body
      = RespBody.message "Task created successfully" ∧
    (createTask false inp false now wfail clients).events = [parsedTask inp] ∧
    (createTask false inp false now wfail clients).delivered
      = (clients.filter (fun c => !wfail c)).map (fun c => (c, parsedTask inp)) ∧
    (createTask false inp false now wfail clients).storeAttempts
      = [⟨(parsedTask inp).title, (parsedTask inp).assigned, (parsedTask inp).status, now⟩] := by
  refine ⟨rfl, rfl, rfl, ?_, rfl⟩
  show (broadcastTaskUpdate wfail clients (parsedTask inp)).2 = _
  rw [broadcastTaskUpdate, fanout_spec]

/-- C2 (counterexample): a well-formed body with no `title` field (and no
`id`/`created_at`) decodes to the zero value `""` and is not rejected:
`createTask` answers 200, performs the store write with an empty title, and
broadcasts — there is no field-presence validation, contradicting the claim
that a missing title yields a validation error with no store write and no
broadcast. -/
theorem createTask_missing_title_not_rejected :
    (createTask false ⟨none, none, some "a", some "todo", none⟩ false 1
        (fun _ => false) [7]).status = 200 ∧
    (createTask false ⟨none, none, some "a", some "todo", none⟩ false 1
        (fun _ => false) [7]).storeAttempts = [⟨"", "a", "todo", 1⟩] ∧
    (createTask false ⟨none, none, some "a", some "todo", none⟩ false 1
        (fun _ => false) [7]).events = [⟨0, "", "a", "todo", 0⟩] ∧
    ((200 : Nat) == 400) = false :=
  ⟨rfl, rfl, rfl, rfl⟩

/-- C2 (amended): the only validation `createTask` performs is body decoding.
When `c.BodyParser` fails (malformed body), the caller synchronously gets a
400 error and the run performs no store write, hands no event to the broadcast
hub, delivers nothing and leaves the registry unchanged. Inputs that decode
but lack title or assignee/status fields are not rejected. -/
theorem createTask_rejects_only_malformed (inp : TaskInput) (storeFails : Bool)
    (now : Int) (wfail : Handle → Bool) (clients : List Handle) :
    createTask true inp storeFails now wfail clients
      = ⟨400, RespBody.error "Invalid request", [], [], [], clients⟩ := rfl

/-- C3: a `broadcastTaskUpdate` run over a registry in which the handles
satisfying `wfail` have a failing transport delivers the event to exactly the
non-failing handles (N − K deliveries for N registered and K failing),
removes exactly the failing handles from the registry, keeps delivering after
each failure (later non-failing handles still appear among the deliveries),
and returns no error: its result type carries none, and `createTask` answers
200 no matter how many subscribers failed. -/
theorem broadcast_partial_failure (wfail : Handle → Bool) (clients : List Handle)
    (task : Task) (inp : TaskInput) (now : Int) :
    (broadcastTaskUpdate wfail clients task).2
      = (clients.filter (fun c => !wfail c)).map (fun c => (c, task)) ∧
    (broadcastTaskUpdate wfail clients task).1
      = clients.filter (fun c => !wfail c) ∧
    (broadcastTaskUpdate wfail clients task).2.length
      = clients.length - (clients.filter (fun c => wfail c)).length ∧
    (createTask false inp false now wfail clients).status = 200 := by
  have h := fanout_spec wfail clients task
  rw [broadcastTaskUpdate, h]
  refine ⟨rfl, rfl, ?_, rfl⟩
  rw [List.length_map]
  have hsum := (List.length_eq_length_filter_add (l := clients) (fun c => wfail c)).symm
  omega

/-- C4: when the store write fails, `createTask` answers 500 with an error
body, hands no event to the broadcast hub, delivers nothing to any registered
subscriber, leaves the registry unchanged, and attempts the write exactly once
(no automatic retry). Moreover persistence happens-before broadcast: on every
path, either no event is handed to the hub, or the run parsed, the store write
succeeded and exactly one store write was attempted before it. -/
theorem createTask_store_failure_no_broadcast (inp : TaskInput) (now : Int)
    (wfail : Handle → Bool) (clients : List Handle) :
    (createTask false inp true now wfail clients).status = 500 ∧
    (createTask false inp true now wfail clients).body
      = RespBody.error "Failed to create task" ∧
    (createTask false inp true now wfail clients).events = [] ∧
    (createTask false inp true now wfail clients).delivered = [] ∧
    (createTask false inp true now wfail clients).registry = clients ∧
    (createTask false inp true now wfail clients).storeAttempts.length = 1 ∧
    ∀ malformed storeFails : Bool,
      (createTask malformed inp storeFails now wfail clients).events = [] ∨
      (malformed = false ∧ storeFails = false ∧
        (createTask malformed inp storeFails now wfail clients).storeAttempts.length = 1) := by
  refine ⟨rfl, rfl, rfl, rfl, rfl, rfl, ?_⟩
  intro malformed storeFails
  cases malformed with
  | false =>
      cases storeFails with
      | false => exact Or.inr ⟨rfl, rfl, rfl⟩
      | true => exact Or.inl rfl
  | true => exact Or.inl rfl

/-- C6: after any sequence of register/unregister calls starting from the
empty registry, the view the broadcast hub iterates over has no duplicates and
contains exactly the handles currently registered (the reference set
semantics `registeredSpec`); consequently a broadcast run delivers to each
handle at most once — registering the same handle twice never duplicates
delivery, since `register` leaves the key set unchanged when the handle is
already present. -/
theorem snapshot_is_registered_set (ops : List RegOp) :
    (snapshot (applyOps [] ops)).Nodup ∧
    (∀ h : Handle, h ∈ snapshot (applyOps [] ops) ↔ h ∈ registeredSpec ∅ ops) ∧
    ∀ (wfail : Handle → Bool) (t : Task),
      ((broadcastTaskUpdate wfail (applyOps [] ops) t).2.map Prod.fst).Nodup := by
  have hnd := applyOps_nodup ops [] List.nodup_nil
  refine ⟨hnd, ?_, ?_⟩
  · intro h
    exact applyOps_mem ops [] ∅ (by simp) h
  · intro wfail t
    rw [broadcastTaskUpdate, fanout_spec, List.map_map]
    have hcomp : (Prod.fst ∘ fun c : Handle => (c, t)) = id := rfl
    rw [hcomp, List.map_id]
    exact hnd.filter _

/-- C7: `unregister` is idempotent — removing the same handle twice equals
removing it once — and removing a handle that is absent is a no-op that
returns normally and leaves the registry unchanged, matching Go's
`delete(clients, c)` on a missing key. -/
theorem unregister_idempotent_noop (s : List Handle) (h : Handle) :
    unregister (unregister s h) h = unregister s h ∧
    (h ∉ s → unregister s h = s) := by
  constructor
  · rw [unregister, unregister, List.filter_filter]
    refine List.filter_congr ?_
    intro x _
    cases hx : x == h <;> simp [hx]
  · intro hns
    rw [unregister, List.filter_eq_self]
    intro a ha
    have hne : a ≠ h := fun e => hns (e ▸ ha)
    simp [hne]

/-- C7 witness: concrete instance of `unregister_idempotent_noop` at the
registry `[1, 2]` and the absent handle `3`. -/
theorem unregister_idempotent_noop_witness :
    unregister (unregister [1, 2] 3) 3 = unregister [1, 2] 3 ∧
    unregister [1, 2] 3 = [1, 2] :=
  ⟨(unregister_idempotent_noop [1, 2] 3).1,
   (unregister_idempotent_noop [1, 2] 3).2 (by decide)⟩

/-- C8: a `POST /task` request carrying no bearer credential at all is not
rejected: the router of `main` installs only CORS and logging middleware, so
the request reaches `createTask`, which answers 200 and performs the store
write — instead of the unauthorized (401) rejection the claim requires. The
same router wires `GET /tasks` and `GET /ws` with no credential check
either. -/
theorem task_post_without_credential_succeeds :
    (handleTaskPost ⟨none, false, ⟨none, some "t", some "a", some "todo", none⟩⟩
        false 1 (fun _ => false) []).status = 200 ∧
    (handleTaskPost ⟨none, false, ⟨none, some "t", some "a", some "todo", none⟩⟩
        false 1 (fun _ => false) []).storeAttempts = [⟨"t", "a", "todo", 1⟩] ∧
    ((200 : Nat) == 401) = false :=
  ⟨rfl, rfl, rfl⟩

/-- C9: when the tasks query succeeds with zero rows, `getTasks` answers 200
with the empty JSON array as body — the handler explicitly serializes the
non-nil `[]Task{}` — and for every successful query result the body is never
JSON `null` (the nil slice is never marshaled). -/
theorem getTasks_empty_is_json_array (rows : List (Option Task)) :
    (getTasks (some [])).status = 200 ∧
    (getTasks (some [])).body = Json.arr [] ∧
    ((getTasks (some rows)).body).isNull = false := by
  refine ⟨rfl, rfl, ?_⟩
  rw [getTasks]
  cases htasks : rows.foldl
      (fun acc r => match r with | none => acc | some t => acc.append t)
      (GoSlice.nil : GoSlice Task) with
  | nil => simp [htasks, GoSlice.len, marshalSlice, Json.isNull]
  | mk l =>
      by_cases hl : l.length = 0
      · simp [htasks, GoSlice.len, marshalSlice, Json.isNull, hl]
      · simp [htasks, GoSlice.len, marshalSlice, Json.isNull, hl]

/-- C10: a frame received on one WebSocket connection is written verbatim to
every registered client whose transport accepts it — the sender itself
included, since it is registered — so any connected client can inject
arbitrary events into all subscribers' streams; and the handler performs no
store write. -/
theorem ws_message_echoed_to_all (wfail : Handle → Bool) (clients : List Handle)
    (msg : WsMsg) (sender : Handle) (hs : sender ∈ clients)
    (hw : wfail sender = false) :
    (wsHandleMessage wfail clients msg).1.2
      = (clients.filter (fun c => !wfail c)).map (fun c => (c, msg)) ∧
    (sender, msg) ∈ (wsHandleMessage wfail clients msg).1.2 ∧
    (wsHandleMessage wfail clients msg).2 = [] := by
  have h1 : (wsHandleMessage wfail clients msg).1.2
      = (clients.filter (fun c => !wfail c)).map (fun c => (c, msg)) := by
    show (fanout wfail clients msg).2 = _
    rw [fanout_spec]
  refine ⟨h1, ?_, rfl⟩
  rw [h1]
  refine List.mem_map.mpr ⟨sender, ?_, rfl⟩
  exact List.mem_filter.mpr ⟨hs, by simp [hw]⟩

/-- C10 witness: concrete instance of `ws_message_echoed_to_all` with the
single registered connection `5` echoing a frame back to itself. -/
theorem ws_message_echoed_to_all_witness :
    (5 ∈ ([5] : List Handle)) ∧
    ((wsHandleMessage (fun _ => false) [5] ⟨1, [104]⟩).1.2
        = (([5] : List Handle).filter (fun c => !(fun _ : Handle => false) c)).map
            (fun c => (c, (⟨1, [104]⟩ : WsMsg))) ∧
      ((5 : Handle), (⟨1, [104]⟩ : WsMsg))
        ∈ (wsHandleMessage (fun _ => false) [5] ⟨1, [104]⟩).1.2 ∧
      (wsHandleMessage (fun _ => false) [5] ⟨1, [104]⟩).2 = []) :=
  ⟨by decide,
   ws_message_echoed_to_all (fun _ => false) [5] ⟨1, [104]⟩ 5 (by decide) rfl⟩

end TaskHub
